import Mathlib

/-!
Verification of the SamilPowerMySQL inverter communication core.

The definitions below are a shallow embedding of the Python source:

* framing codec: calculate_checksum, construct_message, read_message
  (src/lib/inverter.py);
* status schema: the StatusType hierarchy and the status_types registry
  (src/lib/statustypes.py);
* session behaviour: the status-format cache test of Inverter.status and
  the keep-alive exchange of KeepAliveInverter (src/lib/inverter.py).

Byte strings are modelled as List Nat; fallible Python operations
(int.to_bytes overflow, raised exceptions) are modelled with Option and
Except.
-/

deriving instance DecidableEq for Except

/-- Big-endian interpretation of a byte string, as Python int.from_bytes
with byteorder big and signed False.  An empty string yields 0. -/
def fromBytesBE (l : List Nat) : Nat :=
  l.foldl (fun acc b => 256 * acc + b) 0

/-- Signed big-endian interpretation, as Python int.from_bytes with
signed True (two's complement over 8 * length bits). -/
def fromBytesSignedBE (l : List Nat) : Int :=
  if 2 * fromBytesBE l ≥ 256 ^ l.length then
    (fromBytesBE l : Int) - 256 ^ l.length
  else
    (fromBytesBE l : Int)

/-- Python n.to_bytes 2 with byteorder big: two big-endian bytes when the
value fits, and failure (OverflowError) when it does not. -/
def toBytesBE2 (n : Nat) : Option (List Nat) :=
  if n < 65536 then some [n / 256, n % 256] else none

/-- Embeds calculate_checksum of src/lib/inverter.py: the sum of all
message bytes rendered with int.to_bytes 2; the source does not reduce
the sum modulo 2^16, so a sum of 65536 or more raises OverflowError,
modelled as none. -/
def calculate_checksum (message : List Nat) : Option (List Nat) :=
  toBytesBE2 message.sum

/-- Embeds construct_message of src/lib/inverter.py: start marker 55 AA,
identifier, two-byte big-endian payload size, payload, checksum. -/
def construct_message (identifier payload : List Nat) : Option (List Nat) :=
  match toBytesBE2 payload.length with
  | none => none
  | some payload_size =>
    let message := [0x55, 0xaa] ++ identifier ++ payload_size ++ payload
    match calculate_checksum message with
    | none => none
    | some checksum => some (message ++ checksum)

/-- The only exception read_message can currently raise: the ValueError
for a payload size above 4096.  The EOF, start-marker and checksum
checks are commented out in the source. -/
inductive MsgError where
  | payloadSizeValueError
deriving DecidableEq

/-- Embeds read_message of src/lib/inverter.py on an explicit stream of
remaining bytes: reads 2 start bytes, 3 identifier bytes, 2 size bytes,
the payload and 2 checksum bytes, returning the parsed pair together
with the unread rest of the stream.  A short stream simply yields short
reads, exactly as the file object would; the commented-out EOF,
start-marker and checksum checks are absent. -/
def read_message_stream (s : List Nat) :
    Except MsgError ((List Nat × List Nat) × List Nat) :=
  let s1 := s.drop 2
  let identifier := s1.take 3
  let s2 := s1.drop 3
  let payload_size_bytes := s2.take 2
  let s3 := s2.drop 2
  let payload_size := fromBytesBE payload_size_bytes
  if payload_size > 4096 then
    .error .payloadSizeValueError
  else
    let payload := s3.take payload_size
    let s4 := s3.drop payload_size
    .ok ((identifier, payload), s4.drop 2)

/-- read_message as the source exposes it: identifier and payload of the
next message on the stream. -/
def read_message (s : List Nat) : Except MsgError (List Nat × List Nat) :=
  (read_message_stream s).map (fun r => r.1)

/-- Helper: taking exactly the length of the left part of an append
returns that left part. -/
theorem take_append_length {α : Type} (l₁ l₂ : List α) (n : Nat)
    (h : l₁.length = n) : (l₁ ++ l₂).take n = l₁ := by
  subst h
  induction l₁ with
  | nil => simp
  | cons a t ih => simp [List.take, ih]

/-- C1: read_message is a left inverse of construct_message on 3-byte
identifiers and payloads of at most 4096 bytes, whenever
construct_message produces a frame. -/
theorem construct_read_roundtrip (I P m : List Nat)
    (hI : I.length = 3) (hP : P.length ≤ 4096)
    (hm : construct_message I P = some m) :
    read_message m = .ok (I, P) := by
  obtain ⟨i1, i2, i3, rfl⟩ := List.length_eq_three.mp hI
  have hlen : P.length < 65536 := by omega
  have hsize : toBytesBE2 P.length = some [P.length / 256, P.length % 256] := by
    simp [toBytesBE2, hlen]
  unfold construct_message at hm
  rw [hsize] at hm
  simp only at hm
  set msg := [0x55, 0xaa] ++ [i1, i2, i3] ++ [P.length / 256, P.length % 256] ++ P with hmsg
  cases hck : calculate_checksum msg with
  | none => rw [hck] at hm; exact absurd hm (by simp)
  | some ck =>
    rw [hck] at hm
    simp only [Option.some.injEq] at hm
    subst hm
    have hfrom : fromBytesBE [P.length / 256, P.length % 256] = P.length := by
      simp [fromBytesBE, List.foldl]
      omega
    have hm2 : msg ++ ck =
        0x55 :: 0xaa :: i1 :: i2 :: i3 :: P.length / 256 :: P.length % 256 :: (P ++ ck) := by
      simp [hmsg]
    rw [hm2]
    unfold read_message read_message_stream
    simp only [List.drop, List.take]
    rw [hfrom]
    have hnot : ¬ P.length > 4096 := by omega
    simp only [hnot, if_false, ite_false]
    rw [take_append_length P ck P.length rfl]
    rfl

/-- C1 witness: the round trip at the status request frame. -/
theorem construct_read_roundtrip_witness :
    read_message [0x55, 0xaa, 0x01, 0x02, 0x02, 0x00, 0x00, 0x01, 0x04] =
      .ok ([0x01, 0x02, 0x02], []) :=
  construct_read_roundtrip [0x01, 0x02, 0x02] [] _ (by decide) (by decide) (by decide)

set_option maxRecDepth 4000 in
/-- C2 counterexample: construct_message is not total on 3-byte
identifiers and payloads of at most 4096 bytes; a 256-byte payload of
0xFF bytes drives the byte sum to 66301 ≥ 2^16 and int.to_bytes raises
OverflowError (modelled as none). -/
theorem construct_message_not_total :
    construct_message [0xff, 0xff, 0xff] (List.replicate 256 0xff) = none := by decide

/-- C2 amended: every frame that construct_message does produce ends in
the two-byte big-endian rendering of the byte sum of the rest of the
frame; that sum is below 2^16 (otherwise no frame is produced), and the
trailing bytes therefore decode to the sum reduced modulo 2^16. -/
theorem checksum_invariant (I P m : List Nat)
    (hm : construct_message I P = some m) :
    ∃ body : List Nat,
      m = body ++ [body.sum / 256, body.sum % 256] ∧
      body.sum < 65536 ∧
      fromBytesBE [body.sum / 256, body.sum % 256] = body.sum % 65536 := by
  unfold construct_message at hm
  cases hsz : toBytesBE2 P.length with
  | none => rw [hsz] at hm; exact absurd hm (by simp)
  | some payload_size =>
    rw [hsz] at hm
    simp only at hm
    set msg := [0x55, 0xaa] ++ I ++ payload_size ++ P with hmsg
    cases hck : calculate_checksum msg with
    | none => rw [hck] at hm; exact absurd hm (by simp)
    | some ck =>
      rw [hck] at hm
      simp only [Option.some.injEq] at hm
      unfold calculate_checksum toBytesBE2 at hck
      by_cases hlt : msg.sum < 65536
      · rw [if_pos hlt] at hck
        refine ⟨msg, ?_, hlt, ?_⟩
        · rw [← hm]
          simp only [Option.some.injEq] at hck
          rw [hck]
        · simp [fromBytesBE, List.foldl]
          omega
      · rw [if_neg hlt] at hck
        exact absurd hck (by simp)

/-- C2 amended witness: the invariant at the status request frame. -/
theorem checksum_invariant_witness :
    ∃ body : List Nat,
      [0x55, 0xaa, 0x01, 0x02, 0x02, 0x00, 0x00, 0x01, 0x04] =
        body ++ [body.sum / 256, body.sum % 256] ∧
      body.sum < 65536 ∧
      fromBytesBE [body.sum / 256, body.sum % 256] = body.sum % 65536 :=
  checksum_invariant [0x01, 0x02, 0x02] [] _ (by decide)

/-- C3: the shipped read_message raises on none of the three conditions
the claim lists.  It returns a successful parse on an empty stream (no
Eof), on a frame whose first two bytes are not 55 AA (no
MalformedFrame), and on a frame whose trailing two bytes differ from the
computed checksum (no BadChecksum): those checks are commented out in
the source, contradicting the docstring of read_message. -/
theorem read_message_lax :
    read_message [] = .ok ([], []) ∧
    read_message [0x00, 0x00, 0x01, 0x02, 0x03, 0x00, 0x00, 0x00, 0x00] =
      .ok ([0x01, 0x02, 0x03], []) ∧
    read_message [0x55, 0xaa, 0x01, 0x02, 0x02, 0x00, 0x00, 0x00, 0x00] =
      .ok ([0x01, 0x02, 0x02], []) :=
  ⟨rfl, rfl, rfl⟩

/-- Embeds Python bytes.find for a single byte value: the first index of
the byte in the string, or none where Python returns -1. -/
def bfind : List Nat → Nat → Option Nat
  | [], _ => none
  | b :: rest, t => if b = t then some 0 else (bfind rest t).map (fun i => i + 1)

/-- The two-byte slot of a status payload at format index i: the Python
slice payload with bounds i * 2 and i * 2 + 2, which clamps at the end
of the string and never fails. -/
def slot (payload : List Nat) (i : Nat) : List Nat :=
  (payload.drop (2 * i)).take 2

/-- Embeds BytesStatusType.get_value of src/lib/statustypes.py: find
every declared type id in the format string; if any is missing return
None, otherwise join the two-byte payload slots at the found indices. -/
def bytes_get_value (type_ids : List Nat) (fmt payload : List Nat) :
    Option (List Nat) :=
  let indices := type_ids.map (bfind fmt)
  if none ∈ indices then none
  else some (List.flatten (indices.map (fun oi => slot payload (oi.getD 0))))

/-- Embeds IntStatusType.get_value: the joined bytes read as a
big-endian integer, two's complement when signed. -/
def int_get_value (type_ids : List Nat) (signed : Bool) (fmt payload : List Nat) :
    Option Int :=
  (bytes_get_value type_ids fmt payload).map
    (fun seq => if signed then fromBytesSignedBE seq else (fromBytesBE seq : Int))

/-- An exact decimal as Python Decimal produces it here: the integer
value of Decimal together with the exponent applied by scaleb, denoting
mantissa * 10 ^ exponent. -/
structure PyDecimal where
  mantissa : Int
  exponent : Int
deriving DecidableEq

/-- The exact rational value a PyDecimal denotes. -/
def PyDecimal.toRat (d : PyDecimal) : ℚ :=
  (d.mantissa : ℚ) * 10 ^ d.exponent

/-- Embeds DecimalStatusType.get_value: the integer scaled by 10^scale
as an exact decimal. -/
def decimal_get_value (type_ids : List Nat) (scale : Int) (signed : Bool)
    (fmt payload : List Nat) : Option PyDecimal :=
  (int_get_value type_ids signed fmt payload).map (fun n => PyDecimal.mk n scale)

/-- Embeds OneOfStatusType.get_value: the first constituent whose value
is not None, else None. -/
def oneof_get_value {α : Type} (ds : List (List Nat → List Nat → Option α))
    (fmt payload : List Nat) : Option α :=
  ds.findSome? (fun d => d fmt payload)

/-- Embeds IfPresentStatusType.get_value: the gate id is looked up with
the BytesStatusType machinery; when its presence matches the wanted
presence the inner status type decides the value, otherwise None. -/
def ifpresent_get_value {α : Type} (type_id : Nat) (presence : Bool)
    (status_type : List Nat → List Nat → Option α)
    (fmt payload : List Nat) : Option α :=
  if (bytes_get_value [type_id] fmt payload).isSome = presence then
    status_type fmt payload
  else
    none

/-- The operating_modes dictionary of OperationModeStatusType.get_value. -/
def operating_modes (n : Int) : Option String :=
  if n = 0 then some "Wait"
  else if n = 1 then some "Normal"
  else if n = 2 then some "Fault"
  else if n = 3 then some "Permanent fault"
  else if n = 4 then some "Check"
  else if n = 5 then some "PV power off"
  else none

/-- The exception a status decode can raise: the KeyError of the
operating_modes dictionary lookup, carrying the missing key (none for
the Python None key that arises when type id 0x0C is absent from the
format). -/
inductive DecodeError where
  | keyError (key : Option Int)
deriving DecidableEq

/-- Embeds OperationModeStatusType.get_value: the unsigned integer at
the 0x0C slot looked up in operating_modes.  The source performs the
dictionary lookup without any None or range check, so an absent 0x0C id
raises KeyError None and an out-of-table integer raises KeyError n. -/
def opmode_get_value (fmt payload : List Nat) : Except DecodeError String :=
  match int_get_value [0x0c] false fmt payload with
  | none => .error (.keyError none)
  | some n =>
    match operating_modes n with
    | some s => .ok s
    | none => .error (.keyError (some n))

/-- The grid_voltage entry of status_types: 0x32 gated on 0x51 absent. -/
def grid_voltage_value (fmt payload : List Nat) : Option PyDecimal :=
  ifpresent_get_value 0x51 false (decimal_get_value [0x32] (-1) false) fmt payload

/-- The grid_current entry of status_types: 0x31 gated on 0x51 absent. -/
def grid_current_value (fmt payload : List Nat) : Option PyDecimal :=
  ifpresent_get_value 0x51 false (decimal_get_value [0x31] (-1) false) fmt payload

/-- The grid_frequency entry of status_types: 0x33 gated on 0x51 absent. -/
def grid_frequency_value (fmt payload : List Nat) : Option PyDecimal :=
  ifpresent_get_value 0x51 false (decimal_get_value [0x33] (-2) false) fmt payload

/-- The grid_voltage_r_phase entry: 0x32 gated on 0x51 present. -/
def grid_voltage_r_phase_value (fmt payload : List Nat) : Option PyDecimal :=
  ifpresent_get_value 0x51 true (decimal_get_value [0x32] (-1) false) fmt payload

/-- The grid_current_r_phase entry: 0x31 gated on 0x51 present. -/
def grid_current_r_phase_value (fmt payload : List Nat) : Option PyDecimal :=
  ifpresent_get_value 0x51 true (decimal_get_value [0x31] (-1) false) fmt payload

/-- The grid_frequency_r_phase entry: 0x33 gated on 0x51 present. -/
def grid_frequency_r_phase_value (fmt payload : List Nat) : Option PyDecimal :=
  ifpresent_get_value 0x51 true (decimal_get_value [0x33] (-2) false) fmt payload

/-- The grid_current_s_phase entry: plain decimal on type id 0x51. -/
def grid_current_s_phase_value (fmt payload : List Nat) : Option PyDecimal :=
  decimal_get_value [0x51] (-1) false fmt payload

/-- A value of a status sample: integer, exact decimal, or the
operation-mode string. -/
inductive StatusValue where
  | int (n : Int)
  | dec (d : PyDecimal)
  | str (s : String)
deriving DecidableEq

/-- The status_types registry of src/lib/statustypes.py after its first
entry (operation_mode, treated separately since its decoder can raise),
in declaration order. -/
def status_types_rest : List (String × (List Nat → List Nat → Option StatusValue)) :=
  [("total_operation_time", fun f p => (int_get_value [0x09, 0x0a] false f p).map .int),
   ("pv1_input_power", fun f p => (decimal_get_value [0x27] 0 false f p).map .dec),
   ("pv2_input_power", fun f p => (decimal_get_value [0x28] 0 false f p).map .dec),
   ("pv1_voltage", fun f p => (decimal_get_value [0x01] (-1) false f p).map .dec),
   ("pv2_voltage", fun f p => (decimal_get_value [0x02] (-1) false f p).map .dec),
   ("pv1_current", fun f p => (decimal_get_value [0x04] (-1) false f p).map .dec),
   ("pv2_current", fun f p => (decimal_get_value [0x05] (-1) false f p).map .dec),
   ("output_power", fun f p =>
     (oneof_get_value
       [decimal_get_value [0x0b] 0 false, decimal_get_value [0x34] 0 false] f p).map .dec),
   ("energy_today", fun f p => (decimal_get_value [0x11] (-2) false f p).map .dec),
   ("energy_total", fun f p =>
     (oneof_get_value
       [decimal_get_value [0x07, 0x08] (-1) false,
        decimal_get_value [0x35, 0x36] (-1) false] f p).map .dec),
   ("grid_voltage", fun f p => (grid_voltage_value f p).map .dec),
   ("grid_current", fun f p => (grid_current_value f p).map .dec),
   ("grid_frequency", fun f p => (grid_frequency_value f p).map .dec),
   ("grid_voltage_r_phase", fun f p => (grid_voltage_r_phase_value f p).map .dec),
   ("grid_current_r_phase", fun f p => (grid_current_r_phase_value f p).map .dec),
   ("grid_frequency_r_phase", fun f p => (grid_frequency_r_phase_value f p).map .dec),
   ("grid_voltage_s_phase", fun f p => (decimal_get_value [0x52] (-1) false f p).map .dec),
   ("grid_current_s_phase", fun f p => (grid_current_s_phase_value f p).map .dec),
   ("grid_frequency_s_phase", fun f p => (decimal_get_value [0x53] (-2) false f p).map .dec),
   ("grid_voltage_t_phase", fun f p => (decimal_get_value [0x72] (-1) false f p).map .dec),
   ("grid_current_t_phase", fun f p => (decimal_get_value [0x71] (-1) false f p).map .dec),
   ("grid_frequency_t_phase", fun f p => (decimal_get_value [0x73] (-2) false f p).map .dec),
   ("internal_temperature", fun f p => (decimal_get_value [0x00] (-1) true f p).map .dec),
   ("heatsink_temperature", fun f p => (decimal_get_value [0x2f] (-1) true f p).map .dec)]

/-- The size-mismatch warning condition of Inverter.status: a warning is
logged when twice the format length differs from the payload length. -/
def status_warns (fmt payload : List Nat) : Bool :=
  decide (2 * fmt.length ≠ payload.length)

/-- Embeds the decoding loop of Inverter.status: every registry entry is
evaluated in order and the non-None values are collected.  The
operation_mode entry comes first; when its lookup raises, the whole
status call fails with that exception. -/
def status_values (fmt payload : List Nat) :
    Except DecodeError (List (String × StatusValue)) :=
  match opmode_get_value fmt payload with
  | .error e => .error e
  | .ok s =>
    .ok (("operation_mode", .str s) ::
      status_types_rest.filterMap
        (fun nd => (nd.2 fmt payload).map (fun v => (nd.1, v))))

/-- Helper: bfind misses exactly the bytes that are not in the string. -/
theorem bfind_eq_none (fmt : List Nat) (t : Nat) :
    bfind fmt t = none ↔ t ∉ fmt := by
  induction fmt with
  | nil => simp [bfind]
  | cons b rest ih =>
    simp only [bfind, List.mem_cons]
    by_cases hb : b = t
    · simp [hb]
    · simp only [hb, if_false, Option.map_eq_none', ih]
      constructor
      · intro hn hor
        cases hor with
        | inl he => exact hb he.symm
        | inr hi => exact hn hi
      · intro hn hi
        exact hn (Or.inr hi)

/-- Helper: bfind returns the first index of the byte: the format holds
the byte there and nowhere earlier. -/
theorem bfind_first (fmt : List Nat) (t i : Nat) (h : bfind fmt t = some i) :
    fmt[i]? = some t ∧ t ∉ fmt.take i := by
  induction fmt generalizing i with
  | nil => simp [bfind] at h
  | cons b rest ih =>
    by_cases hb : b = t
    · simp only [bfind, hb, if_true] at h
      cases h
      simp [hb]
    · simp only [bfind, hb, if_false, Option.map_eq_some'] at h
      obtain ⟨j, hj, rfl⟩ := h
      obtain ⟨hget, hmem⟩ := ih j hj
      refine ⟨by simpa using hget, ?_⟩
      simp only [List.take_succ_cons, List.mem_cons, not_or]
      exact ⟨fun he => hb he.symm, hmem⟩

/-- Helper: a BytesStatusType decode is None exactly when one of its
type ids is absent from the format. -/
theorem bytes_get_value_eq_none (ids fmt p : List Nat) :
    bytes_get_value ids fmt p = none ↔ ∃ t ∈ ids, t ∉ fmt := by
  unfold bytes_get_value
  by_cases hmem : none ∈ ids.map (bfind fmt)
  · simp only [hmem, if_true, true_iff]
    obtain ⟨t, ht, hfind⟩ := List.mem_map.mp hmem
    exact ⟨t, ht, (bfind_eq_none fmt t).mp hfind⟩
  · simp only [hmem, if_false, reduceCtorEq, false_iff, not_exists]
    intro t ht
    exact hmem (List.mem_map.mpr ⟨t, ht.1, (bfind_eq_none fmt t).mpr ht.2⟩)

/-- Helper: when every type id is found, the decoded value is the
concatenation, in declared order, of the two-byte slots at the found
indices. -/
theorem bytes_get_value_concat (ids fmt p : List Nat) (idx : List Nat)
    (h : ids.map (bfind fmt) = idx.map some) :
    bytes_get_value ids fmt p =
      some (List.flatten (idx.map (fun i => slot p i))) := by
  unfold bytes_get_value
  have hnone : none ∉ idx.map some := by simp
  simp only [h, hnone, if_false]
  congr 1
  rw [List.map_map]
  rfl

/-- Helper: a BytesStatusType decode depends on the payload only through
the slots its found indices select. -/
theorem bytes_get_value_local (ids fmt p p' : List Nat)
    (h : ∀ t ∈ ids, ∀ i, bfind fmt t = some i → slot p i = slot p' i) :
    bytes_get_value ids fmt p = bytes_get_value ids fmt p' := by
  unfold bytes_get_value
  by_cases hmem : none ∈ ids.map (bfind fmt)
  · simp [hmem]
  · simp only [hmem, if_false, Option.some.injEq]
    congr 1
    apply List.map_congr_left
    intro oi hoi
    obtain ⟨t, ht, hf⟩ := List.mem_map.mp hoi
    cases oi with
    | none => exact absurd hoi hmem
    | some i =>
      simp only [Option.getD_some]
      exact h t ht i hf

/-- C4: a status field with declared type ids decodes to None exactly
when one of its ids is absent from the format; bfind returns the first
index of an id; when every id is found the value is the concatenation of
the two-byte payload slots at those first indices, in declared order;
and the value depends on the payload only through those slots. -/
theorem bytes_status_slots (ids fmt p p' : List Nat) :
    (bytes_get_value ids fmt p = none ↔ ∃ t ∈ ids, t ∉ fmt) ∧
    (∀ t i, bfind fmt t = some i → fmt[i]? = some t ∧ t ∉ fmt.take i) ∧
    (∀ idx : List Nat, ids.map (bfind fmt) = idx.map some →
      bytes_get_value ids fmt p =
        some (List.flatten (idx.map (fun i => slot p i)))) ∧
    ((∀ t ∈ ids, ∀ i, bfind fmt t = some i → slot p i = slot p' i) →
      bytes_get_value ids fmt p = bytes_get_value ids fmt p') :=
  ⟨bytes_get_value_eq_none ids fmt p,
   fun t i h => bfind_first fmt t i h,
   fun idx h => bytes_get_value_concat ids fmt p idx h,
   fun h => bytes_get_value_local ids fmt p p' h⟩

/-- C4 witness: the pv1_input_power slots at a concrete format; payload
bytes outside the selected slot do not affect the value. -/
theorem bytes_status_slots_witness :
    bytes_get_value [0x27] [0x27] [1, 2] = bytes_get_value [0x27] [0x27] [1, 2, 99] :=
  (bytes_status_slots [0x27] [0x27] [1, 2] [1, 2, 99]).2.2.2 (by
    intro t ht i hi
    simp only [List.mem_singleton] at ht
    subst ht
    simp only [bfind, if_true, reduceIte, Option.some.injEq] at hi
    subst hi
    rfl)

/-- C5 counterexample: with format 0C 27 and the two-byte payload 00 01
the size-mismatch warning fires, decoding proceeds, and pv1_input_power,
whose slot lies entirely beyond the end of the payload, is reported with
value 0 rather than as None: the Python slice clamps to the empty byte
string and int.from_bytes turns it into 0. -/
theorem status_truncated_slot_not_none :
    status_warns [0x0c, 0x27] [0, 1] = true ∧
    status_values [0x0c, 0x27] [0, 1] =
      .ok [("operation_mode", .str "Normal"), ("pv1_input_power", .dec ⟨0, 0⟩)] :=
  ⟨rfl, by decide⟩

/-- C5 amended: when the payload length differs from twice the format
length a warning is logged and decoding proceeds; an integer or decimal
field whose type ids are all found at indices whose two-byte slots lie
beyond the end of the payload decodes the empty slice and is reported
with value 0, not as None. -/
theorem status_mismatch_behavior (fmt payload ids : List Nat) (scale : Int) (sg : Bool)
    (h : ∀ t ∈ ids, ∃ i, bfind fmt t = some i ∧ payload.length ≤ 2 * i) :
    (status_warns fmt payload = true ↔ 2 * fmt.length ≠ payload.length) ∧
    (decimal_get_value ids scale sg fmt payload = some ⟨0, scale⟩ ∧
      PyDecimal.toRat ⟨0, scale⟩ = 0) := by
  constructor
  · simp [status_warns]
  · have hmem : none ∉ ids.map (bfind fmt) := by
      intro hn
      obtain ⟨t, ht, hft⟩ := List.mem_map.mp hn
      obtain ⟨i, hi, _⟩ := h t ht
      rw [hi] at hft
      exact absurd hft (by simp)
    unfold decimal_get_value int_get_value bytes_get_value
    simp only [hmem, if_false]
    have hflat :
        List.flatten ((ids.map (bfind fmt)).map (fun oi => slot payload (oi.getD 0))) = [] := by
      rw [List.flatten_eq_nil_iff]
      intro l hl
      obtain ⟨oi, hoi, rfl⟩ := List.mem_map.mp hl
      obtain ⟨t, ht, hft⟩ := List.mem_map.mp hoi
      obtain ⟨i, hi, hlen⟩ := h t ht
      rw [hi] at hft
      subst hft
      simp only [Option.getD_some, slot]
      rw [List.drop_eq_nil_of_le hlen]
      rfl
    rw [hflat]
    refine ⟨?_, by simp [PyDecimal.toRat]⟩
    cases sg <;> simp [fromBytesBE, fromBytesSignedBE]

/-- C5 amended witness: format 27 with an empty payload warns and
reports pv1_input_power as 0. -/
theorem status_mismatch_behavior_witness :
    (status_warns [0x27] [] = true ↔ 2 * [0x27].length ≠ ([] : List Nat).length) ∧
    (decimal_get_value [0x27] 0 false [0x27] [] = some ⟨0, 0⟩ ∧
      PyDecimal.toRat ⟨0, 0⟩ = 0) :=
  status_mismatch_behavior [0x27] [] [0x27] 0 false (by
    intro t ht
    simp only [List.mem_singleton] at ht
    subst ht
    exact ⟨0, rfl, by simp⟩)

/-- Helper: on a single type id, the presence test of
IfPresentStatusType coincides with the bfind presence test. -/
theorem bytes_get_value_isSome_single (gate : Nat) (fmt payload : List Nat) :
    (bytes_get_value [gate] fmt payload).isSome = (bfind fmt gate).isSome := by
  unfold bytes_get_value
  cases hb : bfind fmt gate <;> simp [hb]

/-- C6 counterexample: the format consisting of the single byte 0x51
contains 0x51, yet grid_voltage_r_phase decodes to None because its
inner type id 0x32 is absent; the field is not produced. -/
theorem gated_rphase_counterexample :
    0x51 ∈ ([0x51] : List Nat) ∧ grid_voltage_r_phase_value [0x51] [] = none :=
  ⟨by decide, rfl⟩

/-- C6 amended: a Gated decoder returns the inner value exactly when the
presence of the gate id in the format matches the wanted presence and
None otherwise; consequently when 0x51 occurs in the format,
grid_voltage is None and grid_voltage_r_phase equals the inner 0x32
decimal decode (so it is produced exactly when 0x32 also occurs in the
format), and when 0x51 does not occur the reverse holds. -/
theorem gated_grid_fields (fmt payload : List Nat) :
    (∀ (gate : Nat) (pres : Bool) (inner : List Nat → List Nat → Option PyDecimal),
      ifpresent_get_value gate pres inner fmt payload =
        if (bfind fmt gate).isSome = pres then inner fmt payload else none) ∧
    (0x51 ∈ fmt →
      grid_voltage_value fmt payload = none ∧
      grid_voltage_r_phase_value fmt payload =
        decimal_get_value [0x32] (-1) false fmt payload) ∧
    (0x51 ∉ fmt →
      grid_voltage_r_phase_value fmt payload = none ∧
      grid_voltage_value fmt payload =
        decimal_get_value [0x32] (-1) false fmt payload) := by
  have hiso : ∀ (gate : Nat) (pres : Bool) (inner : List Nat → List Nat → Option PyDecimal),
      ifpresent_get_value gate pres inner fmt payload =
        if (bfind fmt gate).isSome = pres then inner fmt payload else none := by
    intro gate pres inner
    unfold ifpresent_get_value
    rw [bytes_get_value_isSome_single]
  refine ⟨hiso, ?_, ?_⟩
  · intro hin
    have hsome : (bfind fmt 0x51).isSome = true := by
      rcases hb : bfind fmt 0x51 with _ | i
      · exact absurd ((bfind_eq_none fmt 0x51).mp hb) (by simpa using hin)
      · rfl
    constructor
    · rw [grid_voltage_value, hiso]
      simp [hsome]
    · rw [grid_voltage_r_phase_value, hiso]
      simp [hsome]
  · intro hout
    have hnone : (bfind fmt 0x51).isSome = false := by
      rw [(bfind_eq_none fmt 0x51).mpr hout]
      rfl
    constructor
    · rw [grid_voltage_r_phase_value, hiso]
      simp [hnone]
    · rw [grid_voltage_value, hiso]
      simp [hnone]

/-- C6 amended witness: with format 51 32 the plain grid_voltage is None
and the r-phase variant delegates to the 0x32 decimal decoder. -/
theorem gated_grid_fields_witness :
    grid_voltage_value [0x51, 0x32] [1, 2, 3, 4] = none ∧
    grid_voltage_r_phase_value [0x51, 0x32] [1, 2, 3, 4] =
      decimal_get_value [0x32] (-1) false [0x51, 0x32] [1, 2, 3, 4] :=
  (gated_grid_fields [0x51, 0x32] [1, 2, 3, 4]).2.1 (by decide)

/-- C7: the operation-mode decoder maps the unsigned integer at the 0x0C
slot through the fixed table and, for every integer outside 0..5, fails
with the KeyError of the dictionary lookup carrying that integer. -/
theorem operation_mode_table (fmt payload : List Nat) (n : Int)
    (h : int_get_value [0x0c] false fmt payload = some n) :
    (n = 0 → opmode_get_value fmt payload = .ok "Wait") ∧
    (n = 1 → opmode_get_value fmt payload = .ok "Normal") ∧
    (n = 2 → opmode_get_value fmt payload = .ok "Fault") ∧
    (n = 3 → opmode_get_value fmt payload = .ok "Permanent fault") ∧
    (n = 4 → opmode_get_value fmt payload = .ok "Check") ∧
    (n = 5 → opmode_get_value fmt payload = .ok "PV power off") ∧
    (¬ (n = 0 ∨ n = 1 ∨ n = 2 ∨ n = 3 ∨ n = 4 ∨ n = 5) →
      opmode_get_value fmt payload = .error (.keyError (some n))) := by
  unfold opmode_get_value
  rw [h]
  refine ⟨?_, ?_, ?_, ?_, ?_, ?_, ?_⟩ <;> intro hn
  · subst hn; rfl
  · subst hn; rfl
  · subst hn; rfl
  · subst hn; rfl
  · subst hn; rfl
  · subst hn; rfl
  · push_neg at hn
    obtain ⟨h0, h1, h2, h3, h4, h5⟩ := hn
    simp [operating_modes, h0, h1, h2, h3, h4, h5]

/-- C7 witness: the S3 scenario of the specification, a 0x0C slot
holding 00 01 decodes to the Normal mode. -/
theorem operation_mode_table_witness :
    opmode_get_value [0x0c] [0, 1] = .ok "Normal" :=
  (operation_mode_table [0x0c] [0, 1] 1 (by decide)).2.1 rfl

/-- Default of the keep_alive argument of the KeepAliveInverter
constructor: the source declares it as 10.0 seconds even though the
docstring of the constructor and the specification state 11 seconds. -/
def keep_alive_default : ℚ := 10

/-- Embeds KeepAliveInverter.keep_alive: construct and send the frame
with identifier 01 09 02 and empty payload, then read one response
message from the inbound stream and discard it.  Returns the bytes
written and the part of the inbound stream left unread. -/
def keep_alive_exchange (input : List Nat) : Option (List Nat × List Nat) :=
  match construct_message [0x01, 0x09, 0x02] [] with
  | none => none
  | some sent =>
    match read_message_stream input with
    | .error _ => none
    | .ok (_, rest) => some (sent, rest)

/-- C8: each keep-alive tick sends exactly the 01 09 02 frame with empty
payload and consumes exactly one response frame, discarding it (here: a
nine-byte response is consumed in full and nothing else is read); but
keep_alive_period defaults to 10 seconds, not the 11 seconds the claim
and the docstring of the constructor state. -/
theorem keep_alive_behavior :
    keep_alive_default = 10 ∧ keep_alive_default ≠ 11 ∧
    keep_alive_exchange [0x55, 0xaa, 0x01, 0x82, 0x00, 0x00, 0x00, 0x01, 0x82] =
      some ([0x55, 0xaa, 0x01, 0x09, 0x02, 0x00, 0x00, 0x01, 0x0b], []) :=
  ⟨rfl, by norm_num [keep_alive_default], by decide⟩

/-- Truthiness of the cached status format under the Python test
performed by Inverter.status: the initial None and an empty byte string
are falsy, a non-empty byte string is truthy. -/
def format_truthy : Option (List Nat) → Bool
  | none => false
  | some f => decide (f ≠ [])

/-- One status() call viewed through its cache logic: when the cache is
falsy the device format is fetched and stored (the second component true
marks a format request with identifier 01 00 02 being issued); otherwise
the cache is reused without a request. -/
def status_cache_step (cache : Option (List Nat)) (fetched : List Nat) :
    Option (List Nat) × Bool :=
  if format_truthy cache then (cache, false) else (some fetched, true)

/-- C9 counterexample: when the device returns the empty format payload,
the first status() call stores it and the next status() call still
issues another format request, because the empty byte string is falsy
under the truthiness test of Inverter.status. -/
theorem status_cache_refetch :
    (status_cache_step none []).2 = true ∧
    (status_cache_step (status_cache_step none []).1 []).2 = true := by decide

/-- C9 amended: provided the fetched format payload is non-empty, the
cache is written once by the first call and every subsequent call reuses
the cached value without issuing another format request; an empty format
payload is falsy and is re-fetched on every call. -/
theorem status_cache_single_write (fmt fmt2 : List Nat) (h : fmt ≠ []) :
    status_cache_step none fmt = (some fmt, true) ∧
    status_cache_step (some fmt) fmt2 = (some fmt, false) := by
  constructor
  · rfl
  · simp [status_cache_step, format_truthy, h]

/-- C9 amended witness: a one-byte format is cached and reused. -/
theorem status_cache_single_write_witness :
    status_cache_step none [0x01] = (some [0x01], true) ∧
    status_cache_step (some [0x01]) [0x02] = (some [0x01], false) :=
  status_cache_single_write [0x01] [0x02] (by decide)

/-- C10: if any r-phase grid field decodes to a value, then
grid_current_s_phase does too: a non-None r-phase value forces the gate
id 0x51 to occur in the format, and 0x51 is the sole type id of
grid_current_s_phase, whose decimal decoder never returns None once its
id is found. -/
theorem rphase_implies_sphase_current (fmt payload : List Nat)
    (h : grid_voltage_r_phase_value fmt payload ≠ none ∨
         grid_current_r_phase_value fmt payload ≠ none ∨
         grid_frequency_r_phase_value fmt payload ≠ none) :
    grid_current_s_phase_value fmt payload ≠ none := by
  rcases hb : bfind fmt 0x51 with _ | i
  · exfalso
    have hfalse : (bytes_get_value [0x51] fmt payload).isSome = false := by
      rw [bytes_get_value_isSome_single, hb]
      rfl
    have hval : ∀ (inner : List Nat → List Nat → Option PyDecimal),
        ifpresent_get_value 0x51 true inner fmt payload = none := by
      intro inner
      unfold ifpresent_get_value
      rw [hfalse]
      simp
    rcases h with h1 | h1 | h1
    · exact h1 (hval _)
    · exact h1 (hval _)
    · exact h1 (hval _)
  · unfold grid_current_s_phase_value decimal_get_value int_get_value bytes_get_value
    simp [hb]

/-- C10 witness: with format 51 32 the r-phase voltage is produced and
so is the s-phase current. -/
theorem rphase_implies_sphase_current_witness :
    grid_current_s_phase_value [0x51, 0x32] [1, 2, 3, 4] ≠ none :=
  rphase_implies_sphase_current [0x51, 0x32] [1, 2, 3, 4] (Or.inl (by decide))
